import Mathlib

/-!
# Verification of the single-node document storage core (datafile + transaction layer)

Shallow embedding of `arangod/VocBase/datafile.h` and
`arangod/Utils/Transaction.cpp`: the marker codec helpers (`AlignedSize`,
`VPackOffset`), the transaction state machine (`begin`/`commit`/`abort`),
the CRUD operations (`documentLocal`, `insertLocal`, `removeLocal`) and the
bulk scan helpers (`readIncremental`, `any`, `all`, `readSlice`).

External collaborators (primary index, key generator, physical
collection read/insert/remove, the low-level transaction functions) are
parameters of the embedded functions, mirroring the collaborator
contracts of the design document.  Machine integers are modelled as `Nat`
with explicit `% 2^w` where overflow matters.
-/

namespace ArangoModel

/-! ## Error codes

Numeric values come from the global error registry (`lib/Basics/errors.dat`,
not part of the sources under verification); only their identity and
distinctness matter for the claims. -/

def TRI_ERROR_NO_ERROR : Int := 0
def TRI_ERROR_OUT_OF_MEMORY : Int := 3
def TRI_ERROR_NOT_IMPLEMENTED : Int := 9
def TRI_ERROR_ARANGO_CONFLICT : Int := 1200
def TRI_ERROR_ARANGO_DOCUMENT_NOT_FOUND : Int := 1202
def TRI_ERROR_ARANGO_COLLECTION_NOT_FOUND : Int := 1203
def TRI_ERROR_ARANGO_DOCUMENT_KEY_BAD : Int := 1221
def TRI_ERROR_ARANGO_DOCUMENT_TYPE_INVALID : Int := 1227
def TRI_ERROR_TRANSACTION_INTERNAL : Int := 1650

/-! ## Marker codec (`VocBase/datafile.h`) -/

/-- `AlignedSize` from `datafile.h`:
`template <typename T> static inline T AlignedSize(T value) {
  return (value + 7) - ((value + 7) & 7); }`
embedded over the unsigned fixed-width integer type of bit width `w` the
template is instantiated at: all arithmetic is taken modulo `2 ^ w`
(`x & 7` is `x % 8`; the subtraction cannot underflow since `x % 8 ≤ x`). -/
def AlignedSize (w : Nat) (value : Nat) : Nat :=
  let x := (value + 7) % 2 ^ w
  x - x % 8

/-- The closed enumeration `TRI_df_marker_type_e` from `datafile.h`
(the `TRI_MARKER_MIN`/`TRI_MARKER_MAX` bounds sentinels are not real
marker types and are omitted). -/
inductive MarkerType where
  | dfHeader
  | dfFooter
  | dfPrologue
  | dfBlank
  | colHeader
  | docKeyDocument
  | docKeyEdge
  | walBeginRemoteTransaction
  | walCommitRemoteTransaction
  | walAbortRemoteTransaction
  | walVPackDocument
  | walVPackRemove
  | walVPackCreateCollection
  | walVPackDropCollection
  | walVPackRenameCollection
  | walVPackChangeCollection
  | walVPackCreateIndex
  | walVPackDropIndex
  | walVPackCreateDatabase
  | walVPackDropDatabase
  | walVPackBeginTransaction
  | walVPackCommitTransaction
  | walVPackAbortTransaction
deriving DecidableEq, Repr

/-- The numeric tag of each marker type, as assigned in `datafile.h`. -/
def MarkerType.code : MarkerType → Nat
  | .dfHeader => 1000
  | .dfFooter => 1001
  | .dfPrologue => 1002
  | .dfBlank => 1100
  | .colHeader => 2000
  | .docKeyDocument => 3007
  | .docKeyEdge => 3008
  | .walBeginRemoteTransaction => 4023
  | .walCommitRemoteTransaction => 4024
  | .walAbortRemoteTransaction => 4025
  | .walVPackDocument => 5000
  | .walVPackRemove => 5001
  | .walVPackCreateCollection => 5010
  | .walVPackDropCollection => 5011
  | .walVPackRenameCollection => 5012
  | .walVPackChangeCollection => 5013
  | .walVPackCreateIndex => 5020
  | .walVPackDropIndex => 5021
  | .walVPackCreateDatabase => 5030
  | .walVPackDropDatabase => 5031
  | .walVPackBeginTransaction => 5040
  | .walVPackCommitTransaction => 5041
  | .walVPackAbortTransaction => 5042

/-- `sizeof(TRI_df_marker_t)` on a 64-bit build (no `TRI_PADDING_32`):
`_size` (u32) + `_crc` (u32) + `_type` (u32) + 4 bytes of alignment padding
before the 8-byte-aligned `_tick` (u64) = 24 bytes. -/
def sizeofTRIDfMarker : Nat := 24

/-- `sizeof(TRI_voc_tid_t)`: transaction ids are `uint64_t`, 8 bytes. -/
def sizeofTRIVocTid : Nat := 8

/-- Outcome of `VPackOffset`: either the payload offset, or the
`TRI_ASSERT(false)` branch (which in a release build would fall through and
return `0`). -/
inductive VPackOffsetResult where
  | payload (offset : Nat)
  | assertionFailure
deriving DecidableEq, Repr

/-- `VPackOffset(type)` from `datafile.h`: returns
`sizeof(TRI_df_marker_t) + sizeof(TRI_voc_tid_t)` for
`TRI_WAL_MARKER_VPACK_DOCUMENT` and `TRI_WAL_MARKER_VPACK_REMOVE`, and
reaches `TRI_ASSERT(false)` for every other marker type. -/
def VPackOffset (t : MarkerType) : VPackOffsetResult :=
  if t = .walVPackDocument ∨ t = .walVPackRemove then
    .payload (sizeofTRIDfMarker + sizeofTRIVocTid)
  else
    .assertionFailure

/-! ## Transaction state machine (`Utils/Transaction.cpp`, lines 71-152) -/

/-- `TRI_transaction_status_e`: the status values a transaction can have. -/
inductive TrxStatus where
  | undefined
  | created
  | running
  | committed
  | aborted
deriving DecidableEq, Repr

/-- The underlying low-level transaction handle (`TRI_transaction_t`),
reduced to the one field the embedded operations touch: `_status`. -/
structure TrxHandle where
  status : TrxStatus
deriving DecidableEq, Repr

/-- The `Transaction` object state: underlying handle (null = `Option.none`),
setup error captured at construction, nesting level, hint flags, and the
"real" flag (false for transactions that never touch physical storage). -/
structure Trx where
  trx : Option TrxHandle
  setupState : Int
  nestingLevel : Nat
  hints : Nat
  isReal : Bool
deriving DecidableEq, Repr

/-- One call to a low-level storage transaction function
(`TRI_BeginTransaction` / `TRI_CommitTransaction` / `TRI_AbortTransaction`),
recorded so theorems can state that a path performs no storage side effect. -/
inductive StorageCall where
  | beginCall
  | commitCall
  | abortCall
deriving DecidableEq, Repr

/-- The external low-level transaction functions (defined in
`VocBase/transaction.cpp`, an external collaborator): each takes the handle,
(for begin) the hints, and the nesting level, and returns an error code and
the updated handle. -/
structure ExtTrxOps where
  beginTrx : TrxHandle → Nat → Nat → Int × TrxHandle
  commitTrx : TrxHandle → Nat → Int × TrxHandle
  abortTrx : TrxHandle → Nat → Int × TrxHandle

/-- Modelled from the spec: `Transaction::getStatus` (the class header
`Utils/Transaction.h` is not among the sources): the transaction status is
"mirrored in the underlying handle"; a null handle has no status
(`undefined`). -/
def Trx.getStatus (t : Trx) : TrxStatus :=
  match t.trx with
  | some h => h.status
  | none => .undefined

/-- Replace the status stored in the underlying handle, leaving every other
component of the transaction state unchanged. -/
def Trx.setStatus (t : Trx) (s : TrxStatus) : Trx :=
  { t with trx := t.trx.map (fun h => { h with status := s }) }

/-- `Transaction::begin` (lines 71-90): null handle → internal error;
recorded setup error → that error; non-real → set status `RUNNING` at
nesting level 0 (no-op otherwise) and succeed; real → call
`TRI_BeginTransaction`.  The result is (error code, new state, storage
calls made). -/
def Trx.beginTrx (ext : ExtTrxOps) (t : Trx) : Int × Trx × List StorageCall :=
  match t.trx with
  | none => (TRI_ERROR_TRANSACTION_INTERNAL, t, [])
  | some h =>
    if t.setupState ≠ TRI_ERROR_NO_ERROR then
      (t.setupState, t, [])
    else if !t.isReal then
      if t.nestingLevel = 0 then
        (TRI_ERROR_NO_ERROR, t.setStatus .running, [])
      else
        (TRI_ERROR_NO_ERROR, t, [])
    else
      let (res, h2) := ext.beginTrx h t.hints t.nestingLevel
      (res, { t with trx := some h2 }, [.beginCall])

/-- `Transaction::commit` (lines 96-112): null handle or status not
`RUNNING` → internal error, nothing changed; non-real → set status
`COMMITTED` at nesting level 0 (no-op otherwise) and succeed; real →
call `TRI_CommitTransaction`. -/
def Trx.commit (ext : ExtTrxOps) (t : Trx) : Int × Trx × List StorageCall :=
  if t.trx = none ∨ t.getStatus ≠ .running then
    (TRI_ERROR_TRANSACTION_INTERNAL, t, [])
  else if !t.isReal then
    if t.nestingLevel = 0 then
      (TRI_ERROR_NO_ERROR, t.setStatus .committed, [])
    else
      (TRI_ERROR_NO_ERROR, t, [])
  else
    match t.trx with
    | none => (TRI_ERROR_TRANSACTION_INTERNAL, t, [])
    | some h =>
      let (res, h2) := ext.commitTrx h t.nestingLevel
      (res, { t with trx := some h2 }, [.commitCall])

/-- `Transaction::abort` (lines 118-135): null handle or status not
`RUNNING` → internal error, nothing changed; non-real → set status
`ABORTED` at nesting level 0 (no-op otherwise) and succeed; real →
call `TRI_AbortTransaction`. -/
def Trx.abort (ext : ExtTrxOps) (t : Trx) : Int × Trx × List StorageCall :=
  if t.trx = none ∨ t.getStatus ≠ .running then
    (TRI_ERROR_TRANSACTION_INTERNAL, t, [])
  else if !t.isReal then
    if t.nestingLevel = 0 then
      (TRI_ERROR_NO_ERROR, t.setStatus .aborted, [])
    else
      (TRI_ERROR_NO_ERROR, t, [])
  else
    match t.trx with
    | none => (TRI_ERROR_TRANSACTION_INTERNAL, t, [])
    | some h =>
      let (res, h2) := ext.abortTrx h t.nestingLevel
      (res, { t with trx := some h2 }, [.abortCall])

/-- `Transaction::finish` (lines 141-152): commit on no prior error,
else abort and return the original error. -/
def Trx.finish (ext : ExtTrxOps) (t : Trx) (errorNum : Int) :
    Int × Trx × List StorageCall :=
  if errorNum = TRI_ERROR_NO_ERROR then
    t.commit ext
  else
    let (_, t2, calls) := t.abort ext
    (errorNum, t2, calls)

/-! ## VelocyPack values and document CRUD (`Utils/Transaction.cpp`) -/

/-- An attribute value inside a VelocyPack object, restricted to the shapes
the embedded operations inspect: strings, (unsigned) integers, booleans and
custom-typed byte sequences (used for the synthesized `_id`). -/
inductive VPackVal where
  | str (s : String)
  | int (n : Nat)
  | boolV (b : Bool)
  | custom (bytes : List Nat)
deriving DecidableEq, Repr

/-- A VelocyPack object: an attribute list.  Lookup takes the first match. -/
abbrev VObject := List (String × VPackVal)

/-- A top-level argument slice handed to a CRUD operation: an object, a
string (a plain key), or something else (array arguments are rejected
before the `*Local` functions are reached). -/
inductive VPack where
  | str (s : String)
  | obj (fields : VObject)
  | otherV
deriving DecidableEq, Repr

/-- `VPackSlice::get(attribute)` on an object: the first attribute with the
given name, if any. -/
def vget (fields : VObject) (k : String) : Option VPackVal :=
  match fields with
  | [] => none
  | (a, v) :: rest => if a = k then some v else vget rest k

/-- A master pointer (`TRI_doc_mptr_copy_t`): the revision id `_rid` and the
document body reachable through `vpack()`. -/
structure MPtr where
  rid : Nat
  body : VObject
deriving DecidableEq, Repr

/-- Result of a CRUD operation: an error code or the VelocyPack result. -/
abbrev OpResult := Except Int VObject

/-- `2^64 - 1`, the largest value of `TRI_voc_rid_t`. -/
def UINT64_MAX : Nat := 18446744073709551615

/-- Decimal value of the longest digit prefix of a character list. -/
def digitsPrefixVal : List Char → Nat → Nat
  | [], acc => acc
  | c :: cs, acc =>
    if c.isDigit then digitsPrefixVal cs (acc * 10 + (c.toNat - 48)) else acc

/-- Modelled from the spec: `arangodb::basics::StringUtils::uint64`
(`lib/Basics/StringUtils.h` is not among the sources): a `strtoull`-style
decimal parse — the value of the longest digit prefix, clamped to the
`uint64` range; a string with no leading digit (any non-numeric string)
parses to `0`. -/
def stringUtilsUint64 (s : String) : Nat :=
  min (digitsPrefixVal s.data 0) UINT64_MAX

/-- The value a supplied `_rev` attribute parses to
(`Transaction.cpp` lines 479-486 and 785-792): a string is parsed with
`StringUtils::uint64`, an integer is taken as is, and any other shape
leaves `expectedRevision` at its initial value `0`. -/
def revValueOf : VPackVal → Nat
  | .str s => stringUtilsUint64 s
  | .int n => n
  | _ => 0

/-- The expected revision extracted from an object argument: the parsed
`_rev` attribute, or `0` when `_rev` is absent. -/
def expectedRevisionOf (fields : VObject) : Nat :=
  match vget fields "_rev" with
  | none => 0
  | some r => revValueOf r

/-- Tail of `Transaction::documentLocal` (lines 494-516) after key and
expected revision have been extracted: order the ditch (failure →
out-of-memory), read through the collection, and apply the optimistic
revision check (`expectedRevision != 0 && expectedRevision != mptr._rid`
→ conflict), else return the document body. -/
def documentLocalRead (readFn : String → Except Int MPtr) (ditchOk : Bool)
    (key : String) (expectedRevision : Nat) : OpResult :=
  if !ditchOk then .error TRI_ERROR_OUT_OF_MEMORY
  else
    match readFn key with
    | .error res => .error res
    | .ok mptr =>
      if expectedRevision ≠ 0 ∧ expectedRevision ≠ mptr.rid then
        .error TRI_ERROR_ARANGO_CONFLICT
      else
        .ok mptr.body

/-- `Transaction::documentLocal` (lines 457-516).  `resolve` is the
collection name resolver (`0` = unknown collection), `readFn` the
collection's `read` (primary-index lookup, an external collaborator),
`ditchOk` whether `orderDitch` succeeds.  Extracts `_key` (string argument
or `_key` attribute of an object; anything else → bad key), the optional
expected revision, then reads and applies the revision check. -/
def documentLocal (resolve : String → Nat) (readFn : String → Except Int MPtr)
    (ditchOk : Bool) (collectionName : String) (value : VPack) : OpResult :=
  if resolve collectionName = 0 then
    .error TRI_ERROR_ARANGO_COLLECTION_NOT_FOUND
  else
    match value with
    | .obj fields =>
      match vget fields "_key" with
      | some (.str key) =>
        documentLocalRead readFn ditchOk key (expectedRevisionOf fields)
      | _ => .error TRI_ERROR_ARANGO_DOCUMENT_KEY_BAD
    | .str key => documentLocalRead readFn ditchOk key 0
    | .otherV => .error TRI_ERROR_ARANGO_DOCUMENT_KEY_BAD

/-- The collection's key generator, an external collaborator
(`VocBase/KeyGenerator.h`): `generate(tick) -> key`,
`validate(key, isRestore) -> ok|error`. -/
structure KeyGenerator where
  generate : Nat → String
  validate : String → Int

/-- Modelled from the spec: `MarkerHelper::storeNumber<uint64_t>`
(`Storage/Marker.h` is not among the sources): the fixed-width (8-byte)
little-endian binary encoding of a number. -/
def storeNumber64 (v : Nat) : List Nat :=
  (List.range 8).map (fun i => v / 2 ^ (8 * i) % 256)

/-- The 9-byte custom-typed `_id` value synthesized by `insertLocal`
(lines 607-609): the custom type tag `0xf3` followed by the fixed-width
binary encoding of the collection id. -/
def customIdFor (cid : Nat) : VPackVal :=
  .custom (0xf3 :: storeNumber64 cid)

/-- Modelled from the spec: `VPackCollection::merge(left, right,
/0 mergeObjects 0/ false, /0 nullMeansRemove 0/ false)` (the velocypack
library is an external collaborator): attributes present in `right`
override the same-named attributes of `left`; attributes only in `right`
are appended after `left`'s. -/
def vpackMerge (l r : VObject) : VObject :=
  l.map (fun kv => match vget r kv.1 with | some w => (kv.1, w) | none => kv)
    ++ r.filter (fun kv => (vget l kv.1).isNone)

/-- Outcome of `insertLocal`: the operation result plus (for the theorems)
the merged document that was handed to the physical insert, when that
point was reached. -/
structure InsertOutcome where
  res : OpResult
  stored : Option VObject
deriving Repr

/-- Tail of `Transaction::insertLocal` (lines 603-640) after the `_key`
part of the merge object has been built: add the synthesized `_rev`
(decimal string of the tick) and `_id` (custom-typed binary encoding of
the collection id), merge — caller fields on the left, synthesized fields
on the right, so the synthesized ones win — order the ditch, perform the
physical insert, and build the `_id`/`_rev`/`_key` result from the stored
document. -/
def insertLocalExec (tick cid : Nat) (insertFn : VObject → Int × MPtr)
    (ditchOk : Bool) (collectionName : String) (fields : VObject)
    (mergeKeyPart : VObject) : InsertOutcome :=
  let mergeObj := mergeKeyPart
    ++ [("_rev", .str (Nat.repr tick)), ("_id", customIdFor cid)]
  let toInsert := vpackMerge fields mergeObj
  if !ditchOk then ⟨.error TRI_ERROR_OUT_OF_MEMORY, none⟩
  else
    let (res, mptr) := insertFn toInsert
    if res ≠ TRI_ERROR_NO_ERROR then ⟨.error res, some toInsert⟩
    else
      let resultKey :=
        match vget mptr.body "_key" with
        | some (.str s) => s
        | _ => ""
      let resultRev :=
        match vget mptr.body "_rev" with
        | some (.str s) => s
        | _ => ""
      ⟨.ok [("_id", .str (collectionName ++ "/" ++ resultKey)),
            ("_rev", .str resultRev),
            ("_key", .str resultKey)],
        some toInsert⟩

/-- `Transaction::insertLocal` (lines 565-640).  `tick` is the fresh tick
from `TRI_NewTickServer()`, `insertFn` the collection's physical `insert`
(external collaborator) returning an error code and the master pointer of
the stored document.  The argument is the attribute list of the caller's
object (`insert` has already rejected non-objects).  A missing `_key` is
generated from the tick; a present `_key` must be a string and pass the
key generator's validation. -/
def insertLocal (resolve : String → Nat) (kg : KeyGenerator) (tick : Nat)
    (insertFn : VObject → Int × MPtr) (ditchOk : Bool)
    (collectionName : String) (fields : VObject) : InsertOutcome :=
  let cid := resolve collectionName
  if cid = 0 then ⟨.error TRI_ERROR_ARANGO_COLLECTION_NOT_FOUND, none⟩
  else
    match vget fields "_key" with
    | none =>
      insertLocalExec tick cid insertFn ditchOk collectionName fields
        [("_key", .str (kg.generate tick))]
    | some (.str s) =>
      if kg.validate s ≠ TRI_ERROR_NO_ERROR then ⟨.error (kg.validate s), none⟩
      else insertLocalExec tick cid insertFn ditchOk collectionName fields []
    | some _ => ⟨.error TRI_ERROR_ARANGO_DOCUMENT_KEY_BAD, none⟩

/-- `TRI_doc_update_policy_e`: `LAST_WRITE` overwrites unconditionally,
`ERROR` fails on a revision mismatch. -/
inductive UpdatePolicy where
  | lastWrite
  | errorOnConflict
deriving DecidableEq, Repr

/-- Outcome of `removeLocal`: the operation result plus (for the theorems)
the update policy passed to the physical remove, when that point was
reached. -/
structure RemoveOutcome where
  res : OpResult
  policyUsed : Option UpdatePolicy
deriving Repr

/-- Tail of `Transaction::removeLocal` (lines 797-819) after `_key` and the
expected revision have been extracted: the remove slice gets the `_key`
attribute found in the argument plus `_rev` (decimal string of the
expected revision); the update policy is `LAST_WRITE` when no (nonzero)
expected revision was given and `ERROR` otherwise; the physical remove
reports back the revision actually removed.  The `key` parameter is the
accumulating `std::string key` local of the source, which is never
assigned after its declaration, so the `_id`/`_key` attributes of the
result are built from the empty string. -/
def removeLocalExec (removeFn : VObject → UpdatePolicy → Nat → Int × Nat)
    (collectionName : String) (key : String) (keyPart : VObject)
    (expectedRevision : Nat) : RemoveOutcome :=
  let removeSlice := keyPart ++ [("_rev", .str (Nat.repr expectedRevision))]
  let updatePolicy :=
    if expectedRevision = 0 then UpdatePolicy.lastWrite
    else UpdatePolicy.errorOnConflict
  let (res, actualRevision) := removeFn removeSlice updatePolicy expectedRevision
  if res ≠ TRI_ERROR_NO_ERROR then ⟨.error res, some updatePolicy⟩
  else
    ⟨.ok [("_id", .str (collectionName ++ "/" ++ key)),
          ("_rev", .str (Nat.repr actualRevision)),
          ("_key", .str key)],
      some updatePolicy⟩

/-- `Transaction::removeLocal` (lines 758-819).  `removeFn` is the
collection's physical `remove` (external collaborator) taking the remove
slice, the update policy and the expected revision, and returning an error
code and the actual revision removed.  The argument is an object carrying
`_key` (and optionally `_rev`) or a plain key string; `remove` has already
rejected every other shape except arrays. -/
def removeLocal (resolve : String → Nat)
    (removeFn : VObject → UpdatePolicy → Nat → Int × Nat)
    (collectionName : String) (value : VPack) : RemoveOutcome :=
  if resolve collectionName = 0 then
    ⟨.error TRI_ERROR_ARANGO_COLLECTION_NOT_FOUND, none⟩
  else
    let key : String := ""
    match value with
    | .obj fields =>
      match vget fields "_key" with
      | some (.str ks) =>
        removeLocalExec removeFn collectionName key [("_key", .str ks)]
          (expectedRevisionOf fields)
      | _ => ⟨.error TRI_ERROR_ARANGO_DOCUMENT_KEY_BAD, none⟩
    | .str s =>
      removeLocalExec removeFn collectionName key [("_key", .str s)] 0
    | .otherV =>
      removeLocalExec removeFn collectionName key [] 0

/-! ## Bulk scan helpers (`Utils/Transaction.cpp`, lines 160-414)

The primary index is an external collaborator (spec §6); its sequential
cursor traversal is modelled from the spec: an index holding the documents
in native order, a caller-owned cursor position, `lookupSequential`
yielding the documents first-to-last and `lookupSequentialReverse`
yielding them last-to-first, each returning `none` once exhausted.

Lock acquisition and ditch ordering are external too: `lockRes` is the
error code returned by `this->lock(...)` and `ditchOk` tells whether
`orderDitch(...)` returned a ditch.  Every helper reports, besides the
error code and the collected documents, whether it took the read lock and
whether it released it again, so that the lock-discipline claims can be
stated. -/

variable {α : Type}

/-- Result of one scan helper: error code, collected documents, and the
lock bookkeeping (did the helper acquire the collection read lock, did it
release it before returning). -/
structure ScanResult (α : Type) where
  err : Int
  docs : List α
  lockTaken : Bool
  lockReleased : Bool
deriving Repr

/-- Modelled from the spec: `PrimaryIndex::lookupSequential` — the document
at the cursor position, in native index order. -/
def lookupSequential (idx : List α) (pos : Nat) : Option α :=
  idx.get? pos

/-- Modelled from the spec: `PrimaryIndex::lookupSequentialReverse` — the
cursor counts documents already consumed from the end, so successive calls
yield the documents last-to-first. -/
def lookupSequentialReverse (idx : List α) (rpos : Nat) : Option α :=
  idx.reverse.get? rpos

/-- The scan loop of `readIncremental` (lines 188-204):
`while (count < batchSize || skip > 0)` — look the next document up (stop
when the index is exhausted), discard it while `skip > 0`, otherwise
collect it and stop as soon as `limit` documents have been collected. -/
def readIncLoop (idx : List α) (pos count skip batchSize limit : Nat)
    (acc : List α) : List α :=
  if count < batchSize ∨ 0 < skip then
    match h : lookupSequential idx pos with
    | none => acc
    | some x =>
      if 0 < skip then
        readIncLoop idx (pos + 1) count (skip - 1) batchSize limit acc
      else if limit ≤ count + 1 then acc ++ [x]
      else readIncLoop idx (pos + 1) (count + 1) skip batchSize limit (acc ++ [x])
  else acc
termination_by idx.length - pos
decreasing_by
  all_goals
    have hlt : pos < idx.length := by
      rcases Nat.lt_or_ge pos idx.length with hp | hp
      · exact hp
      · simp [lookupSequential, List.getElem?_eq_none hp] at h
    omega

/-- `Transaction::readIncremental` (lines 160-214): read-lock the
collection, order a ditch (failure → out-of-memory), run the batch scan
loop inside `try`/`catch` (an allocation failure inside the loop, modelled
by `throwsOom`, is caught, the lock released and out-of-memory returned),
then release the lock. -/
def readIncremental (lockRes : Int) (ditchOk throwsOom : Bool)
    (idx : List α) (internalSkip batchSize skip limit : Nat) : ScanResult α :=
  if lockRes ≠ TRI_ERROR_NO_ERROR then ⟨lockRes, [], false, false⟩
  else if !ditchOk then ⟨TRI_ERROR_OUT_OF_MEMORY, [], true, false⟩
  else if throwsOom then ⟨TRI_ERROR_OUT_OF_MEMORY, [], true, true⟩
  else ⟨TRI_ERROR_NO_ERROR,
        readIncLoop idx internalSkip 0 skip batchSize limit [],
        true, true⟩

/-- The sampling loop of the batched `any` (lines 242-251): up to
`batchSize` documents from `lookupRandom` (an external collaborator,
modelled as a function of the number of calls made so far), stopping when
it reports exhaustion. -/
def anyLoop (randFn : Nat → Option α) (numRead : Nat) : Nat → List α
  | 0 => []
  | fuel + 1 =>
    match randFn numRead with
    | none => []
    | some x => x :: anyLoop randFn (numRead + 1) fuel

/-- The batched `Transaction::any` (lines 222-255): read-lock, order a
ditch (failure → out-of-memory), sample up to `batchSize` random
documents, release the lock. -/
def anyBatch (lockRes : Int) (ditchOk : Bool) (randFn : Nat → Option α)
    (batchSize : Nat) : ScanResult α :=
  if lockRes ≠ TRI_ERROR_NO_ERROR then ⟨lockRes, [], false, false⟩
  else if !ditchOk then ⟨TRI_ERROR_OUT_OF_MEMORY, [], true, false⟩
  else ⟨TRI_ERROR_NO_ERROR, anyLoop randFn 0 batchSize, true, true⟩

/-- The single-document `Transaction::any` (lines 261-288): read-lock,
order a ditch (failure → out-of-memory), one random lookup, release the
lock. -/
def anySingle (lockRes : Int) (ditchOk : Bool) (randFn : Nat → Option α) :
    ScanResult α :=
  if lockRes ≠ TRI_ERROR_NO_ERROR then ⟨lockRes, [], false, false⟩
  else if !ditchOk then ⟨TRI_ERROR_OUT_OF_MEMORY, [], true, false⟩
  else ⟨TRI_ERROR_NO_ERROR, (randFn 0).toList, true, true⟩

/-- The collection loop of `all` (lines 317-324): sequential lookups from
a fresh cursor until the index is exhausted, collecting each document's
key. -/
def allLoop (keyOf : α → String) (idx : List α) (pos : Nat)
    (acc : List String) : List String :=
  match h : lookupSequential idx pos with
  | none => acc
  | some x => allLoop keyOf idx (pos + 1) (acc ++ [keyOf x])
termination_by idx.length - pos
decreasing_by
  all_goals
    have hlt : pos < idx.length := by
      rcases Nat.lt_or_ge pos idx.length with hp | hp
      · exact hp
      · simp [lookupSequential, List.getElem?_eq_none hp] at h
    omega

/-- `Transaction::all` (lines 294-333): read-lock only when the caller asks
for it (`lockFlag`), order a ditch (failure → out-of-memory), collect all
keys when the index is non-empty, release the lock only when it was taken
here. -/
def allKeys (lockRes : Int) (ditchOk : Bool) (lockFlag : Bool)
    (keyOf : α → String) (idx : List α) : ScanResult String :=
  if lockFlag ∧ lockRes ≠ TRI_ERROR_NO_ERROR then ⟨lockRes, [], false, false⟩
  else if !ditchOk then ⟨TRI_ERROR_OUT_OF_MEMORY, [], lockFlag, false⟩
  else ⟨TRI_ERROR_NO_ERROR,
        if 0 < idx.length then allLoop keyOf idx 0 [] else [],
        lockFlag, lockFlag⟩

/-- The backward establishing walk of `readSlice` for negative `skip`
(lines 366-369): a do-while running `|skip|` times — one reverse lookup
per iteration (`k` counts the iterations still to go after the current
one) — returning the last document looked up and the cursor reached. -/
def skipReverse (idx : List α) (rpos : Nat) (k : Nat) : Option α × Nat :=
  match lookupSequentialReverse idx rpos with
  | none => (none, rpos)
  | some x =>
    match k with
    | 0 => (some x, rpos + 1)
    | k' + 1 => skipReverse idx (rpos + 1) k'

/-- The final iteration of a backward collection do-while: one reverse
lookup, collected when the index is not yet exhausted; afterwards the
`count < limit` test fails and the loop stops. -/
def collectReverseOnce (idx : List α) (rpos : Nat) : List α :=
  match lookupSequentialReverse idx rpos with
  | none => []
  | some x => [x]

/-- The backward collection loop of `readSlice` (lines 377-385): a do-while
collecting one reverse lookup per iteration until the index is exhausted
or `limit` documents were collected (the first lookup happens before the
`count < limit` test, as in the source's do-while; in particular `limit`
values `0` and `1` both collect at most one document). -/
def collectReverse (idx : List α) (rpos : Nat) : Nat → List α
  | 0 => collectReverseOnce idx rpos
  | 1 => collectReverseOnce idx rpos
  | n + 2 =>
    match lookupSequentialReverse idx rpos with
    | none => []
    | some x => x :: collectReverse idx (rpos + 1) (n + 1)

/-- The forward skipping loop of `readSlice` for positive `skip`
(lines 392-400): a while loop performing one lookup per remaining skip,
returning early (second component `false`) when the index runs out. -/
def skipForward (idx : List α) : Nat → Nat → Nat × Bool
  | pos, 0 => (pos, true)
  | pos, k + 1 =>
    match lookupSequential idx pos with
    | none => (pos, false)
    | some _ => skipForward idx (pos + 1) k

/-- The final iteration of a forward collection do-while: one forward
lookup, collected when the index is not yet exhausted. -/
def collectForwardOnce (idx : List α) (pos : Nat) : List α :=
  match lookupSequential idx pos with
  | none => []
  | some x => [x]

/-- The forward collection loop of `readSlice` (lines 402-409): the same
do-while shape as the backward one, with forward lookups. -/
def collectForward (idx : List α) (pos : Nat) : Nat → List α
  | 0 => collectForwardOnce idx pos
  | 1 => collectForwardOnce idx pos
  | n + 2 =>
    match lookupSequential idx pos with
    | none => []
    | some x => x :: collectForward idx (pos + 1) (n + 1)

/-- `Transaction::readSlice` (lines 339-414): nothing to do for
`limit == 0`; read-lock; order a ditch (failure → out-of-memory); for
negative `skip` walk backward `|skip|` documents from the end (returning
empty when the walk exhausts the index) and then collect up to `limit`
documents continuing backward; for nonnegative `skip` discard `skip`
forward matches (returning empty when that exhausts the index) and collect
up to `limit` documents forward; release the lock on each of those exits. -/
def readSlice (lockRes : Int) (ditchOk : Bool) (idx : List α)
    (skip : Int) (limit : Nat) : ScanResult α :=
  if limit = 0 then ⟨TRI_ERROR_NO_ERROR, [], false, false⟩
  else if lockRes ≠ TRI_ERROR_NO_ERROR then ⟨lockRes, [], false, false⟩
  else if !ditchOk then ⟨TRI_ERROR_OUT_OF_MEMORY, [], true, false⟩
  else if skip < 0 then
    match skipReverse idx 0 (skip.natAbs - 1) with
    | (none, _) => ⟨TRI_ERROR_NO_ERROR, [], true, true⟩
    | (some _, rpos) =>
      ⟨TRI_ERROR_NO_ERROR, collectReverse idx rpos limit, true, true⟩
  else
    match skipForward idx 0 skip.toNat with
    | (_, false) => ⟨TRI_ERROR_NO_ERROR, [], true, true⟩
    | (pos, true) =>
      ⟨TRI_ERROR_NO_ERROR, collectForward idx pos limit, true, true⟩

/-! ## Lookup lemmas for object merging -/

/-- Lookup in a concatenation: the left operand is consulted first. -/
theorem vget_append (xs ys : VObject) (k : String) :
    vget (xs ++ ys) k = match vget xs k with
      | some v => some v
      | none => vget ys k := by
  induction xs with
  | nil => simp [vget]
  | cons x xs ih =>
    rcases x with ⟨a, v⟩
    by_cases h : a = k <;> simp [vget, h, ih]

/-- Lookup after the key-preserving override map used by `vpackMerge`. -/
theorem vget_replaceFromRight (l r : VObject) (k : String) :
    vget (l.map (fun kv =>
        match vget r kv.1 with | some w => (kv.1, w) | none => kv)) k
      = match vget l k with
        | none => none
        | some v => some (match vget r k with | some w => w | none => v) := by
  induction l with
  | nil => simp [vget]
  | cons x l ih =>
    rcases x with ⟨a, v⟩
    by_cases h : a = k
    · subst h
      cases hr : vget r a <;> simp [vget, hr]
    · cases hr : vget r a <;> simp [vget, h, hr, ih]

/-- A key absent from a list is absent from any filtering of it. -/
theorem vget_filter_of_none (r : VObject) (p : String × VPackVal → Bool)
    (k : String) (h : vget r k = none) : vget (r.filter p) k = none := by
  induction r with
  | nil => simp [vget]
  | cons x r ih =>
    rcases x with ⟨a, v⟩
    by_cases hak : a = k
    · subst hak; simp [vget] at h
    · have h2 : vget r k = none := by simpa [vget, hak] using h
      by_cases hp : p (a, v) = true <;>
        simp [List.filter_cons, hp, vget, hak, ih h2]

/-- Filtering `r` by "key not present in `l`" does not change the lookup of
a key that is indeed not present in `l`. -/
theorem vget_filter_not_in_left (l r : VObject) (k : String)
    (hl : vget l k = none) :
    vget (r.filter (fun kv => (vget l kv.1).isNone)) k = vget r k := by
  induction r with
  | nil => simp
  | cons x r ih =>
    rcases x with ⟨a, v⟩
    by_cases hak : a = k
    · subst hak
      have hp : (vget l a).isNone = true := by simp [hl]
      simp [List.filter_cons, hp, vget]
    · by_cases hp : ((vget l a).isNone : Bool) = true <;>
        simp [List.filter_cons, hp, vget, hak, ih]

/-- An attribute present in the right merge operand wins. -/
theorem vget_merge_right (l r : VObject) (k : String) (w : VPackVal)
    (h : vget r k = some w) : vget (vpackMerge l r) k = some w := by
  unfold vpackMerge
  rw [vget_append, vget_replaceFromRight]
  cases hl : vget l k with
  | some v => simp [h]
  | none => simp [vget_filter_not_in_left l r k hl, h]

/-- An attribute absent from the right merge operand is looked up in the
left one. -/
theorem vget_merge_left (l r : VObject) (k : String)
    (h : vget r k = none) : vget (vpackMerge l r) k = vget l k := by
  unfold vpackMerge
  rw [vget_append, vget_replaceFromRight]
  cases hl : vget l k with
  | some v => simp [h]
  | none => simp [vget_filter_of_none r _ k h]

/-! ## Claims -/

/-- C1: the claim states that every scan helper releases the read lock it
acquired on every exit path, including the ditch-order allocation failure
path.  The code violates this: in each of `readIncremental`, both `any`
overloads, `all` and `readSlice`, when the read lock was acquired and
`orderDitch` then returns null, the helper returns out-of-memory with the
lock still held (`lockTaken = true`, `lockReleased = false`).  This
theorem evaluates all five helpers at such an input. -/
theorem scan_helpers_leak_lock_on_ditch_failure :
    readIncremental TRI_ERROR_NO_ERROR false false [1, 2, 3] 0 10 0 10
      = ⟨TRI_ERROR_OUT_OF_MEMORY, ([] : List Nat), true, false⟩ ∧
    anyBatch TRI_ERROR_NO_ERROR false (fun _ => some (1 : Nat)) 2
      = ⟨TRI_ERROR_OUT_OF_MEMORY, [], true, false⟩ ∧
    anySingle TRI_ERROR_NO_ERROR false (fun _ => some (1 : Nat))
      = ⟨TRI_ERROR_OUT_OF_MEMORY, [], true, false⟩ ∧
    allKeys TRI_ERROR_NO_ERROR false true (fun n => Nat.repr n) [1, 2, 3]
      = ⟨TRI_ERROR_OUT_OF_MEMORY, [], true, false⟩ ∧
    readSlice TRI_ERROR_NO_ERROR false [1, 2, 3] 0 10
      = ⟨TRI_ERROR_OUT_OF_MEMORY, ([] : List Nat), true, false⟩ :=
  ⟨rfl, rfl, rfl, rfl, rfl⟩

/-- C2: the claim states that a successful remove returns the removed
document's `_id` (`collectionName + "/" + key`) and `_key`.  The code
violates this: the local `key` string in `removeLocal` is never assigned
after its declaration, so the result's `_key` is the empty string and its
`_id` is the collection name followed by a bare `/`, for every input.
This theorem evaluates the remove of key `"myKey"` (actual removed
revision 7): the result carries `_key = ""` and `_id = "col/"` instead of
`"myKey"` and `"col/myKey"` (the `_rev` part of the claim is the only part
the code honours). -/
theorem removeLocal_returns_empty_key :
    (removeLocal (fun _ => 1) (fun _ _ _ => (TRI_ERROR_NO_ERROR, 7)) "col"
        (.str "myKey")).res
      = .ok [("_id", .str "col/"), ("_rev", .str "7"), ("_key", .str "")] :=
  rfl

/-- C3 counterexample: the claim states that `readSlice` over 5 documents
`[A,B,C,D,E]` with `skip = -2, limit = 1` returns the 4th document (D).
The code returns the 3rd (C): the backward establishing walk already
consumes E and D, and the collection loop then starts at C. -/
theorem readSlice_negative_skip_counterexample :
    (readSlice TRI_ERROR_NO_ERROR true ["A", "B", "C", "D", "E"] (-2) 1).docs
      = ["C"] ∧ ("C" : String) ≠ "D" :=
  ⟨rfl, by decide⟩

/-- C3 amended: `readSlice` with a negative `skip` first walks backward
from the end, consuming `|skip|` documents, to establish a starting point,
and then collects up to `limit` items continuing backward; for a
collection of exactly 5 documents inserted in order `[a,b,c,d,e]`,
`readSlice(skip = -2, limit = 1)` returns exactly 1 document and that
document is the 3rd one (`c`, the third-from-last). -/
theorem readSlice_negative_skip_five {α : Type} (a b c d e : α) :
    (readSlice TRI_ERROR_NO_ERROR true [a, b, c, d, e] (-2) 1).docs = [c] :=
  rfl

/-- C4 counterexample: the claim states that whenever a `_rev` is supplied
(as a numeric string or an integer) and differs from the found document's
revision, the read fails with CONFLICT.  Supplying the integer `0` as
`_rev` (which differs from the stored revision 5) nevertheless returns the
document body: a parsed expected revision of `0` disables the check. -/
theorem documentLocal_zero_rev_counterexample :
    documentLocal (fun _ => 1) (fun _ => .ok ⟨5, [("v", .int 1)]⟩) true "col"
        (.obj [("_key", .str "k"), ("_rev", .int 0)])
      = .ok [("v", .int 1)] ∧
    revValueOf (.int 0) ≠ (5 : Nat) :=
  ⟨rfl, by decide⟩

/-- C4 amended: for a document read that supplies an expected revision
(`_rev` as a numeric string or an integer alongside `_key`), if the
supplied revision parses to a nonzero value different from the revision of
the document found via the primary index, the operation fails with
CONFLICT and returns no document; if it parses to the found revision — or
to zero, in which case the check is skipped — the document body is
returned with no error. -/
theorem documentLocal_revision_check (resolve : String → Nat)
    (readFn : String → Except Int MPtr) (name : String) (fields : VObject)
    (k : String) (r : VPackVal) (mptr : MPtr)
    (hres : resolve name ≠ 0)
    (hkey : vget fields "_key" = some (.str k))
    (hrev : vget fields "_rev" = some r)
    (hread : readFn k = .ok mptr) :
    (revValueOf r ≠ 0 → revValueOf r ≠ mptr.rid →
      documentLocal resolve readFn true name (.obj fields)
        = .error TRI_ERROR_ARANGO_CONFLICT) ∧
    ((revValueOf r = mptr.rid ∨ revValueOf r = 0) →
      documentLocal resolve readFn true name (.obj fields) = .ok mptr.body) := by
  have hexp : expectedRevisionOf fields = revValueOf r := by
    simp [expectedRevisionOf, hrev]
  constructor
  · intro h1 h2
    simp [documentLocal, documentLocalRead, hres, hkey, hexp, hread, h1, h2]
  · intro hcase
    rcases hcase with hc | hc <;>
      simp [documentLocal, documentLocalRead, hres, hkey, hexp, hread, hc]

/-- C4 witness: reading key `"k"` (stored revision 5) with the wrong
supplied revision `"9"` fails with CONFLICT. -/
theorem documentLocal_revision_check_witness :
    documentLocal (fun _ => 1) (fun _ => .ok ⟨5, [("v", .int 1)]⟩) true "col"
        (.obj [("_key", .str "k"), ("_rev", .str "9")])
      = .error TRI_ERROR_ARANGO_CONFLICT :=
  (documentLocal_revision_check (fun _ => 1) (fun _ => .ok ⟨5, [("v", .int 1)]⟩)
      "col" [("_key", .str "k"), ("_rev", .str "9")] "k" (.str "9")
      ⟨5, [("v", .int 1)]⟩ (by decide) rfl rfl rfl).1 (by decide) (by decide)

/-- The merged document handed to the physical insert by
`insertLocalExec`, independently of the insert's outcome. -/
theorem insertLocalExec_stored (tick cid : Nat) (insertFn : VObject → Int × MPtr)
    (name : String) (fields mkp : VObject) :
    (insertLocalExec tick cid insertFn true name fields mkp).stored
      = some (vpackMerge fields
          (mkp ++ [("_rev", .str (Nat.repr tick)), ("_id", customIdFor cid)])) := by
  unfold insertLocalExec
  rcases hf : insertFn (vpackMerge fields
      (mkp ++ [("_rev", .str (Nat.repr tick)), ("_id", customIdFor cid)]))
    with ⟨res, mptr⟩
  by_cases h0 : res = TRI_ERROR_NO_ERROR <;> simp [hf, h0]

/-- C5: for every insert of an object, the stored document is the caller's
object merged with the synthesized system attributes: a caller-supplied
(valid) `_key` is kept, a `_key` generated from the fresh tick is added
only when absent, the synthesized `_rev` (decimal string of the tick) and
`_id` (tagged fixed-width binary encoding of the collection id) override
any caller-supplied values, and all other attributes are unchanged. -/
theorem insertLocal_merge_spec (resolve : String → Nat) (kg : KeyGenerator)
    (tick : Nat) (insertFn : VObject → Int × MPtr) (name : String)
    (fields : VObject)
    (hres : resolve name ≠ 0)
    (hkey : vget fields "_key" = none ∨
      ∃ s, vget fields "_key" = some (.str s) ∧
        kg.validate s = TRI_ERROR_NO_ERROR) :
    ∃ d, (insertLocal resolve kg tick insertFn true name fields).stored = some d ∧
      vget d "_rev" = some (.str (Nat.repr tick)) ∧
      vget d "_id" = some (customIdFor (resolve name)) ∧
      (∀ s, vget fields "_key" = some (.str s) → vget d "_key" = some (.str s)) ∧
      (vget fields "_key" = none → vget d "_key" = some (.str (kg.generate tick))) ∧
      ∀ k, k ≠ "_key" → k ≠ "_rev" → k ≠ "_id" → vget d k = vget fields k := by
  rcases hkey with hnone | ⟨s, hs, hval⟩
  · refine ⟨vpackMerge fields ([("_key", .str (kg.generate tick))] ++
        [("_rev", .str (Nat.repr tick)), ("_id", customIdFor (resolve name))]),
      ?_, ?_, ?_, ?_, ?_, ?_⟩
    · simp only [insertLocal, hnone, if_neg hres]
      exact insertLocalExec_stored tick (resolve name) insertFn name fields _
    · exact vget_merge_right _ _ _ _ (by simp [vget])
    · exact vget_merge_right _ _ _ _ (by simp [vget])
    · intro s2 hsome; rw [hnone] at hsome; exact absurd hsome (by simp)
    · intro _; exact vget_merge_right _ _ _ _ (by simp [vget])
    · intro k hk hr2 hi
      exact vget_merge_left _ _ _
        (by simp [vget, Ne.symm hk, Ne.symm hr2, Ne.symm hi])
  · refine ⟨vpackMerge fields
        ([("_rev", .str (Nat.repr tick)), ("_id", customIdFor (resolve name))]),
      ?_, ?_, ?_, ?_, ?_, ?_⟩
    · simp only [insertLocal, hs, hval, if_neg hres]
      have := insertLocalExec_stored tick (resolve name) insertFn name fields []
      simpa using this
    · exact vget_merge_right _ _ _ _ (by simp [vget])
    · exact vget_merge_right _ _ _ _ (by simp [vget])
    · intro s2 hsome2
      rw [vget_merge_left _ _ _ (by simp [vget])]
      exact hsome2
    · intro habs; rw [hs] at habs; exact absurd habs (by simp)
    · intro k hk hr2 hi
      exact vget_merge_left _ _ _ (by simp [vget, Ne.symm hr2, Ne.symm hi])

/-- C5 witness: inserting `{a: 1, _rev: "999"}` (no `_key`) with tick 7
into collection id 2 stores a document whose `_rev` is `"7"`,
overriding the caller's `"999"`. -/
theorem insertLocal_merge_spec_witness :
    ∃ d, (insertLocal (fun _ => 2) ⟨fun t => Nat.repr t, fun _ => TRI_ERROR_NO_ERROR⟩
        7 (fun d0 => (TRI_ERROR_NO_ERROR, ⟨7, d0⟩)) true "col"
        [("a", .int 1), ("_rev", .str "999")]).stored = some d ∧
      vget d "_rev" = some (.str (Nat.repr 7)) := by
  obtain ⟨d, hd, hrev2, -⟩ := insertLocal_merge_spec (fun _ => 2)
    ⟨fun t => Nat.repr t, fun _ => TRI_ERROR_NO_ERROR⟩ 7
    (fun d0 => (TRI_ERROR_NO_ERROR, ⟨7, d0⟩)) "col"
    [("a", .int 1), ("_rev", .str "999")] (by decide) (Or.inl rfl)
  exact ⟨d, hd, hrev2⟩

/-- C6: `VPackOffset` returns the payload offset
`sizeof(TRI_df_marker_t) + sizeof(TRI_voc_tid_t)` for exactly the two
payload-bearing WAL marker types `VPACK_DOCUMENT` and `VPACK_REMOVE`, and
reaches the assertion-failure branch for every other marker type. -/
theorem vpackOffset_spec (t : MarkerType) :
    (VPackOffset t = .payload (sizeofTRIDfMarker + sizeofTRIVocTid) ↔
      (t = .walVPackDocument ∨ t = .walVPackRemove)) ∧
    (VPackOffset t = .assertionFailure ↔
      ¬(t = .walVPackDocument ∨ t = .walVPackRemove)) := by
  cases t <;> decide

/-- C7 counterexample: the claim states `AlignedSize(n) ≥ n` for every
nonnegative byte count over the instantiation type's modular arithmetic;
at `n = 2^32 - 1` (width 32) the addition of 7 wraps and the result is
`0 < n`. -/
theorem alignedSize_overflow_counterexample :
    AlignedSize 32 4294967295 = 0 ∧ ¬(4294967295 ≤ AlignedSize 32 4294967295) := by
  decide

/-- C7 amended: for every byte count `n`, `AlignedSize(n)` is a multiple
of 8; and whenever `n + 7` does not overflow the instantiation type
(`n + 7 < 2^w`), additionally `AlignedSize(n) ≥ n` (for the topmost 7
values of the type the addition wraps and the result is smaller than
`n`). -/
theorem alignedSize_spec (w n : Nat) :
    AlignedSize w n % 8 = 0 ∧ (n + 7 < 2 ^ w → n ≤ AlignedSize w n) := by
  have hA : AlignedSize w n = (n + 7) % 2 ^ w - (n + 7) % 2 ^ w % 8 := rfl
  constructor
  · rw [hA]
    have hdm := Nat.div_add_mod ((n + 7) % 2 ^ w) 8
    have h2 : (n + 7) % 2 ^ w - (n + 7) % 2 ^ w % 8
        = 8 * ((n + 7) % 2 ^ w / 8) := by omega
    rw [h2]
    exact Nat.mul_mod_right 8 _
  · intro h
    rw [hA, Nat.mod_eq_of_lt h]
    have h8 : (n + 7) % 8 < 8 := Nat.mod_lt _ (by norm_num)
    omega

/-- C7 witness: at `n = 5`, width 32, the aligned size is a multiple of 8
and at least 5. -/
theorem alignedSize_spec_witness :
    AlignedSize 32 5 % 8 = 0 ∧ 5 ≤ AlignedSize 32 5 :=
  ⟨(alignedSize_spec 32 5).1, (alignedSize_spec 32 5).2 (by decide)⟩

/-- C8: for a non-real transaction with a live handle, `begin` (after a
clean setup) and `commit`/`abort` (from status `RUNNING`) perform no
storage call and modify only the top-level status field: at nesting level
0 they set the handle's status to `RUNNING`/`COMMITTED`/`ABORTED` and
return no error; at positive nesting level they change no state at all. -/
theorem nonReal_transitions (ext : ExtTrxOps) (t : Trx) (h : TrxHandle)
    (htrx : t.trx = some h) (hreal : t.isReal = false) :
    (t.setupState = TRI_ERROR_NO_ERROR →
      (t.nestingLevel = 0 →
        Trx.beginTrx ext t = (TRI_ERROR_NO_ERROR, t.setStatus .running, [])) ∧
      (t.nestingLevel ≠ 0 →
        Trx.beginTrx ext t = (TRI_ERROR_NO_ERROR, t, []))) ∧
    (t.getStatus = .running →
      (t.nestingLevel = 0 →
        Trx.commit ext t = (TRI_ERROR_NO_ERROR, t.setStatus .committed, []) ∧
        Trx.abort ext t = (TRI_ERROR_NO_ERROR, t.setStatus .aborted, [])) ∧
      (t.nestingLevel ≠ 0 →
        Trx.commit ext t = (TRI_ERROR_NO_ERROR, t, []) ∧
        Trx.abort ext t = (TRI_ERROR_NO_ERROR, t, []))) := by
  constructor
  · intro hsetup
    constructor
    · intro hn; simp [Trx.beginTrx, htrx, hsetup, hreal, hn]
    · intro hn; simp [Trx.beginTrx, htrx, hsetup, hreal, hn]
  · intro hrun
    have hst : h.status = .running := by simpa [Trx.getStatus, htrx] using hrun
    constructor
    · intro hn
      constructor
      · simp [Trx.commit, Trx.getStatus, htrx, hst, hreal, hn]
      · simp [Trx.abort, Trx.getStatus, htrx, hst, hreal, hn]
    · intro hn
      constructor
      · simp [Trx.commit, Trx.getStatus, htrx, hst, hreal, hn]
      · simp [Trx.abort, Trx.getStatus, htrx, hst, hreal, hn]

/-- C8 witness: committing a running non-real top-level transaction sets
the status to `COMMITTED` with no error and no storage call. -/
theorem nonReal_transitions_witness :
    Trx.commit
        ⟨fun h0 _ _ => (TRI_ERROR_NO_ERROR, h0), fun h0 _ => (TRI_ERROR_NO_ERROR, h0),
          fun h0 _ => (TRI_ERROR_NO_ERROR, h0)⟩
        ⟨some ⟨.running⟩, TRI_ERROR_NO_ERROR, 0, 0, false⟩
      = (TRI_ERROR_NO_ERROR,
          Trx.setStatus ⟨some ⟨.running⟩, TRI_ERROR_NO_ERROR, 0, 0, false⟩ .committed,
          []) :=
  (((nonReal_transitions
      ⟨fun h0 _ _ => (TRI_ERROR_NO_ERROR, h0), fun h0 _ => (TRI_ERROR_NO_ERROR, h0),
        fun h0 _ => (TRI_ERROR_NO_ERROR, h0)⟩
      ⟨some ⟨.running⟩, TRI_ERROR_NO_ERROR, 0, 0, false⟩
      ⟨.running⟩ rfl rfl).2 rfl).1 rfl).1

/-- C9: for every transaction whose handle is null or whose status is not
`RUNNING`, `commit` and `abort` return the transaction-internal error and
leave the whole transaction state (the handle included) unchanged, making
no storage call. -/
theorem commit_abort_require_running (ext : ExtTrxOps) (t : Trx)
    (h : t.trx = none ∨ t.getStatus ≠ .running) :
    Trx.commit ext t = (TRI_ERROR_TRANSACTION_INTERNAL, t, []) ∧
    Trx.abort ext t = (TRI_ERROR_TRANSACTION_INTERNAL, t, []) := by
  unfold Trx.commit Trx.abort
  rw [if_pos h, if_pos h]
  exact ⟨rfl, rfl⟩

/-- C9 witness: a second commit after a successful commit (status already
`COMMITTED`) fails with the internal error and changes nothing, and so
does abort. -/
theorem commit_abort_require_running_witness :
    Trx.commit
        ⟨fun h0 _ _ => (TRI_ERROR_NO_ERROR, h0), fun h0 _ => (TRI_ERROR_NO_ERROR, h0),
          fun h0 _ => (TRI_ERROR_NO_ERROR, h0)⟩
        ⟨some ⟨.committed⟩, TRI_ERROR_NO_ERROR, 0, 0, false⟩
      = (TRI_ERROR_TRANSACTION_INTERNAL,
          ⟨some ⟨.committed⟩, TRI_ERROR_NO_ERROR, 0, 0, false⟩, []) ∧
    Trx.abort
        ⟨fun h0 _ _ => (TRI_ERROR_NO_ERROR, h0), fun h0 _ => (TRI_ERROR_NO_ERROR, h0),
          fun h0 _ => (TRI_ERROR_NO_ERROR, h0)⟩
        ⟨some ⟨.committed⟩, TRI_ERROR_NO_ERROR, 0, 0, false⟩
      = (TRI_ERROR_TRANSACTION_INTERNAL,
          ⟨some ⟨.committed⟩, TRI_ERROR_NO_ERROR, 0, 0, false⟩, []) :=
  commit_abort_require_running _ _ (Or.inr (by decide))

/-- The update policy `removeLocalExec` hands to the physical remove,
independently of the remove's outcome. -/
theorem removeLocalExec_policy
    (removeFn : VObject → UpdatePolicy → Nat → Int × Nat)
    (name key : String) (kp : VObject) (er : Nat) :
    (removeLocalExec removeFn name key kp er).policyUsed
      = some (if er = 0 then UpdatePolicy.lastWrite
              else UpdatePolicy.errorOnConflict) := by
  unfold removeLocalExec
  rcases hf : removeFn (kp ++ [("_rev", .str (Nat.repr er))])
      (if er = 0 then .lastWrite else .errorOnConflict) er
    with ⟨res, actual⟩
  by_cases h0 : res = TRI_ERROR_NO_ERROR <;> simp [hf, h0]

/-- C10: a supplied `_rev` whose parsed value is `0` — the integer 0, a
string parsing to 0 (any non-numeric string included), or a value that is
neither a string nor an integer — behaves exactly as an absent expected
revision: the document read performs no revision check and returns the
body whatever the stored revision is, and the remove hands the
`LAST_WRITE` (unconditional) policy to the physical delete; no validation
error is raised for such a `_rev`. -/
theorem zeroRevision_spec (resolve : String → Nat)
    (readFn : String → Except Int MPtr)
    (removeFn : VObject → UpdatePolicy → Nat → Int × Nat)
    (name : String) (fields : VObject) (k : String) (r : VPackVal) (mptr : MPtr)
    (hres : resolve name ≠ 0)
    (hkey : vget fields "_key" = some (.str k))
    (hrev : vget fields "_rev" = some r)
    (hzero : revValueOf r = 0)
    (hread : readFn k = .ok mptr) :
    documentLocal resolve readFn true name (.obj fields) = .ok mptr.body ∧
    (removeLocal resolve removeFn name (.obj fields)).policyUsed
      = some UpdatePolicy.lastWrite := by
  have hexp : expectedRevisionOf fields = 0 := by
    simp [expectedRevisionOf, hrev, hzero]
  constructor
  · simp [documentLocal, documentLocalRead, hres, hkey, hexp, hread]
  · simp only [removeLocal, hkey, if_neg hres]
    rw [hexp, removeLocalExec_policy]
    simp

/-- C10 witness: reading back key `"k"` (stored revision 42) with
`_rev` supplied as the integer 0 succeeds, and removing with the same
argument uses the `LAST_WRITE` policy. -/
theorem zeroRevision_spec_witness :
    documentLocal (fun _ => 1) (fun _ => .ok ⟨42, [("v", .int 9)]⟩) true "col"
        (.obj [("_key", .str "k"), ("_rev", .int 0)])
      = .ok [("v", .int 9)] ∧
    (removeLocal (fun _ => 1) (fun _ _ _ => (TRI_ERROR_NO_ERROR, 42)) "col"
        (.obj [("_key", .str "k"), ("_rev", .int 0)])).policyUsed
      = some UpdatePolicy.lastWrite :=
  zeroRevision_spec (fun _ => 1) (fun _ => .ok ⟨42, [("v", .int 9)]⟩)
    (fun _ _ _ => (TRI_ERROR_NO_ERROR, 42)) "col"
    [("_key", .str "k"), ("_rev", .int 0)] "k" (.int 0) ⟨42, [("v", .int 9)]⟩
    (by decide) rfl rfl (by decide) rfl

end ArangoModel
